import Mathlib

/-!
Verification of the GeneralRouter FIX server against its specification.

The development shallowly embeds the C++ sources:
  * `CircularBuffer` (src/circularbuffer.h): a ring buffer over bytes,
    modelled with `List Nat` contents (one `Nat` in `[0,255]` per byte) and
    explicit `head`/`tail`/`full` state.  Socket reads and writes are
    modelled by passing the bytes the kernel would deliver (for `read`)
    or the number of bytes the kernel would accept (for `write`).
  * `Message` and `Message.parseFixMessage` (src/message.h): the zero-copy
    FIX parser.  The two scanning loops of `parseFixMessage` are embedded
    as structural recursions over the suffix of the read view, together
    with the trace of indices at which the C++ loop condition dereferences
    the view (the condition `term != data[pos] && pos < length` reads
    `data[pos]` before the bounds test).
  * `WorkerThread::processLogon`, `processData`, `processFixStream` and
    `closeConnection` (src/worker.h), with the socket-read outcome made an
    explicit event.
  * the two `main` entry points (src/main.cpp and sample/main.cpp).

Bytes are `Nat`s; `'='` is 61, SOH is 1, digits are 48..57.
-/

/-- ASCII bytes of a string literal, used to transcribe C++ string constants. -/
def ascii (s : String) : List Nat := s.data.map Char.toNat

/-- Embeds `class CircularBuffer` from src/circularbuffer.h.  `buffer` is the
backing array (length `capacity`), `head` the read index, `tail` the write
index, `full` the full flag. -/
structure CircularBuffer where
  buffer : List Nat
  capacity : Nat
  head : Nat
  tail : Nat
  full : Bool
deriving DecidableEq, Repr

namespace CircularBuffer

/-- The constructor `CircularBuffer(capacity)`: fresh indices and flag.  The
C++ backing storage is uninitialised; it is modelled as zeros (no operation
reads a cell before writing it, except the out-of-bounds scan read analysed
for the safety claim, whose value does not influence any result). -/
def mk' (capacity : Nat) : CircularBuffer :=
  ⟨List.replicate capacity 0, capacity, 0, 0, false⟩

/-- Embeds `CircularBuffer::dataSize`. -/
def dataSize (b : CircularBuffer) : Nat :=
  if b.full then b.capacity
  else if b.head ≤ b.tail then b.tail - b.head
  else b.capacity - b.head + b.tail

/-- Embeds `CircularBuffer::availableSpace`. -/
def availableSpace (b : CircularBuffer) : Nat :=
  if b.full then 0
  else if b.head ≤ b.tail then b.capacity - (b.tail - b.head)
  else b.head - b.tail

/-- Embeds `CircularBuffer::empty`: `head_ == tail_`. -/
def empty (b : CircularBuffer) : Bool := b.head == b.tail

/-- Embeds `CircularBuffer::getReadView`.  Returns `none` when
`dataSize() == 0`; otherwise the start offset together with the contiguous
bytes the returned pointer/length pair exposes:
`length = (tail >= head) ? tail - head : capacity - head`. -/
def getReadView (b : CircularBuffer) : Option (Nat × List Nat) :=
  if dataSize b = 0 then none
  else some (b.head,
    (b.buffer.drop b.head).take (if b.head ≤ b.tail then b.tail - b.head else b.capacity - b.head))

/-- Embeds `CircularBuffer::consume`: clamps to `dataSize`, advances `head`
modulo the capacity and clears `full`. -/
def consume (b : CircularBuffer) (bytes : Nat) : CircularBuffer :=
  let n := min bytes (dataSize b)
  { b with head := (b.head + n) % b.capacity, full := false }

/-- Overwrites `bs.length` cells of `buf` starting at index `t`
(the contiguous `std::copy` / direct store into `buffer_ + tail_`). -/
def writeContig (buf : List Nat) (t : Nat) (bs : List Nat) : List Nat :=
  buf.take t ++ bs ++ buf.drop (t + bs.length)

/-- Embeds `CircularBuffer::writeFromBytes`.  Returns `none` for the `-1`
buffer-full result, otherwise the (possibly truncated) number of bytes
written together with the new state. -/
def writeFromBytes (b : CircularBuffer) (data : List Nat) : Option Nat × CircularBuffer :=
  if availableSpace b = 0 then (none, b)
  else
    let writeSize := min (availableSpace b) (b.capacity - b.tail)
    let len := min data.length writeSize
    let tl := (b.tail + len) % b.capacity
    (some len,
      { b with buffer := writeContig b.buffer b.tail (data.take len),
               tail := tl, full := tl == b.head })

/-- Embeds `CircularBuffer::writeFromString` (delegates to `writeFromBytes`). -/
def writeFromString (b : CircularBuffer) (data : List Nat) : Option Nat × CircularBuffer :=
  writeFromBytes b data

/-- Embeds `CircularBuffer::writeFromByte`. -/
def writeFromByte (b : CircularBuffer) (c : Nat) : Option Nat × CircularBuffer :=
  if availableSpace b = 0 then (none, b)
  else
    let tl := (b.tail + 1) % b.capacity
    (some 1,
      { b with buffer := writeContig b.buffer b.tail [c],
               tail := tl, full := tl == b.head })

/-- Embeds `CircularBuffer::writeFromSocket`.  `incoming` are the bytes the
socket currently holds; `read` delivers at most the contiguous writable run,
`incoming = []` models `read` returning 0 (peer closed).  Returns `-1` when
the buffer is full (the C++ returns before calling `read`). -/
def writeFromSocket (b : CircularBuffer) (incoming : List Nat) : Int × CircularBuffer :=
  if availableSpace b = 0 then (-1, b)
  else
    let writeSize := min (availableSpace b) (b.capacity - b.tail)
    let n := min incoming.length writeSize
    if n = 0 then (0, b)
    else
      let tl := (b.tail + n) % b.capacity
      (Int.ofNat n,
        { b with buffer := writeContig b.buffer b.tail (incoming.take n),
                 tail := tl, full := tl == b.head })

/-- Embeds `CircularBuffer::readToSocket`.  `accepted` is the number of bytes
the kernel `write` would take; a failed or zero-byte `write` leaves the state
unchanged, exactly as the `bytesWritten > 0` guard does. -/
def readToSocket (b : CircularBuffer) (accepted : Nat) : Int × CircularBuffer :=
  if dataSize b = 0 then (-1, b)
  else
    let readSize := min (dataSize b) (b.capacity - b.head)
    let n := min accepted readSize
    if n = 0 then (0, b)
    else (Int.ofNat n, { b with head := (b.head + n) % b.capacity, full := false })

/-- One write or consume operation on the buffer, with its data argument. -/
inductive BufOp where
  | fromSocket (bs : List Nat)
  | fromString (bs : List Nat)
  | fromBytes (bs : List Nat)
  | fromByte (c : Nat)
  | consumeOp (n : Nat)
  | toSocket (n : Nat)
deriving DecidableEq, Repr

/-- State transition of one buffer operation (return values dropped). -/
def step (b : CircularBuffer) : BufOp → CircularBuffer
  | .fromSocket bs => (writeFromSocket b bs).2
  | .fromString bs => (writeFromString b bs).2
  | .fromBytes bs => (writeFromBytes b bs).2
  | .fromByte c => (writeFromByte b c).2
  | .consumeOp n => consume b n
  | .toSocket n => (readToSocket b n).2

/-- Structural well-formedness maintained by every operation: the backing
store has length `capacity` and both indices are strict residues. -/
def WF (b : CircularBuffer) : Prop :=
  b.buffer.length = b.capacity ∧ b.head < b.capacity ∧ b.tail < b.capacity

theorem length_writeContig (buf : List Nat) (t : Nat) (bs : List Nat)
    (h : t + bs.length ≤ buf.length) :
    (writeContig buf t bs).length = buf.length := by
  simp only [writeContig, List.length_append, List.length_take, List.length_drop]
  omega

theorem wf_mk' (cap : Nat) (h : 0 < cap) : WF (mk' cap) := by
  refine ⟨?_, ?_, ?_⟩ <;> simp [mk', h]

theorem wf_step (b : CircularBuffer) (op : BufOp) (h : WF b) : WF (step b op) := by
  obtain ⟨hlen, hh, ht⟩ := h
  have hcap : 0 < b.capacity := Nat.lt_of_le_of_lt (Nat.zero_le _) hh
  cases op with
  | fromSocket bs =>
    simp only [step, writeFromSocket]
    split
    · exact ⟨hlen, hh, ht⟩
    · split
      · exact ⟨hlen, hh, ht⟩
      · refine ⟨?_, hh, Nat.mod_lt _ hcap⟩
        rw [length_writeContig]
        · exact hlen
        · have : (bs.take (min bs.length (min (availableSpace b) (b.capacity - b.tail)))).length
              ≤ b.capacity - b.tail := by
            simp only [List.length_take]
            omega
          omega
  | fromString bs =>
    simp only [step, writeFromString, writeFromBytes]
    split
    · exact ⟨hlen, hh, ht⟩
    · refine ⟨?_, hh, Nat.mod_lt _ hcap⟩
      rw [length_writeContig]
      · exact hlen
      · have : (bs.take (min bs.length (min (availableSpace b) (b.capacity - b.tail)))).length
            ≤ b.capacity - b.tail := by
          simp only [List.length_take]
          omega
        omega
  | fromBytes bs =>
    simp only [step, writeFromBytes]
    split
    · exact ⟨hlen, hh, ht⟩
    · refine ⟨?_, hh, Nat.mod_lt _ hcap⟩
      rw [length_writeContig]
      · exact hlen
      · have : (bs.take (min bs.length (min (availableSpace b) (b.capacity - b.tail)))).length
            ≤ b.capacity - b.tail := by
          simp only [List.length_take]
          omega
        omega
  | fromByte c =>
    simp only [step, writeFromByte]
    split
    · exact ⟨hlen, hh, ht⟩
    · refine ⟨?_, hh, Nat.mod_lt _ hcap⟩
      rw [length_writeContig]
      · exact hlen
      · simp only [List.length_cons, List.length_nil]
        have : availableSpace b ≠ 0 := by assumption
        have havail : availableSpace b ≤ b.capacity - b.tail ∨ True := Or.inr trivial
        -- tail < capacity hence tail + 1 ≤ capacity = buffer length
        omega
  | consumeOp n =>
    exact ⟨hlen, Nat.mod_lt _ hcap, ht⟩
  | toSocket n =>
    simp only [step, readToSocket]
    split
    · exact ⟨hlen, hh, ht⟩
    · split
      · exact ⟨hlen, hh, ht⟩
      · exact ⟨hlen, Nat.mod_lt _ hcap, ht⟩

theorem wf_foldl (ops : List BufOp) (b : CircularBuffer) (h : WF b) :
    WF (ops.foldl step b) := by
  induction ops generalizing b with
  | nil => exact h
  | cons op rest ih => exact ih _ (wf_step b op h)

theorem capacity_step (b : CircularBuffer) (op : BufOp) :
    (step b op).capacity = b.capacity := by
  cases op <;> simp only [step, writeFromSocket, writeFromString, writeFromBytes,
    writeFromByte, consume, readToSocket] <;> (repeat' split) <;> rfl

theorem capacity_foldl (ops : List BufOp) (b : CircularBuffer) :
    (ops.foldl step b).capacity = b.capacity := by
  induction ops generalizing b with
  | nil => rfl
  | cons op rest ih => rw [List.foldl_cons, ih, capacity_step]

theorem dataSize_add_availableSpace (b : CircularBuffer)
    (hh : b.head < b.capacity) (ht : b.tail < b.capacity) :
    dataSize b + availableSpace b = b.capacity ∧ dataSize b ≤ b.capacity := by
  unfold dataSize availableSpace
  split
  · omega
  · split <;> omega

end CircularBuffer

/-- C6: after any sequence of write and consume operations from a fresh
buffer of positive capacity, `dataSize() + availableSpace() == capacity`
and `dataSize()` lies in `[0, capacity]`. -/
theorem c6_ring_invariant (cap : Nat) (hcap : 0 < cap) (ops : List CircularBuffer.BufOp) :
    CircularBuffer.dataSize (ops.foldl CircularBuffer.step (CircularBuffer.mk' cap)) +
      CircularBuffer.availableSpace (ops.foldl CircularBuffer.step (CircularBuffer.mk' cap)) = cap ∧
    CircularBuffer.dataSize (ops.foldl CircularBuffer.step (CircularBuffer.mk' cap)) ≤ cap := by
  have hwf := CircularBuffer.wf_foldl ops _ (CircularBuffer.wf_mk' cap hcap)
  obtain ⟨hlen, hh, ht⟩ := hwf
  have h2 := CircularBuffer.dataSize_add_availableSpace _ hh ht
  have hc : (ops.foldl CircularBuffer.step (CircularBuffer.mk' cap)).capacity = cap :=
    CircularBuffer.capacity_foldl ops _
  rw [hc] at h2
  exact h2

/-- Witness for C6 at capacity 4 and a concrete operation sequence. -/
theorem c6_ring_invariant_witness :
    0 < 4 ∧
    (CircularBuffer.dataSize
        ([CircularBuffer.BufOp.fromBytes [65, 66, 67], CircularBuffer.BufOp.consumeOp 2,
          CircularBuffer.BufOp.fromByte 68].foldl CircularBuffer.step (CircularBuffer.mk' 4)) +
      CircularBuffer.availableSpace
        ([CircularBuffer.BufOp.fromBytes [65, 66, 67], CircularBuffer.BufOp.consumeOp 2,
          CircularBuffer.BufOp.fromByte 68].foldl CircularBuffer.step (CircularBuffer.mk' 4)) = 4 ∧
      CircularBuffer.dataSize
        ([CircularBuffer.BufOp.fromBytes [65, 66, 67], CircularBuffer.BufOp.consumeOp 2,
          CircularBuffer.BufOp.fromByte 68].foldl CircularBuffer.step (CircularBuffer.mk' 4)) ≤ 4) :=
  ⟨by decide, c6_ring_invariant 4 (by decide) _⟩

/-- C7 counterexample: a completely full buffer (reached by writing 4 bytes
into a fresh capacity-4 buffer) has `dataSize = 4 ≠ 0`, yet `getReadView`
returns a view of length 0, not `min(dataSize, capacity - head) = 4`, and
the length is not strictly positive. -/
theorem c7_counterexample :
    CircularBuffer.dataSize ((CircularBuffer.writeFromBytes (CircularBuffer.mk' 4) [65, 66, 67, 68]).2) = 4 ∧
    CircularBuffer.getReadView ((CircularBuffer.writeFromBytes (CircularBuffer.mk' 4) [65, 66, 67, 68]).2) =
      some (0, ([] : List Nat)) ∧
    ¬(([] : List Nat).length =
        min (CircularBuffer.dataSize ((CircularBuffer.writeFromBytes (CircularBuffer.mk' 4) [65, 66, 67, 68]).2))
          (((CircularBuffer.writeFromBytes (CircularBuffer.mk' 4) [65, 66, 67, 68]).2).capacity -
            ((CircularBuffer.writeFromBytes (CircularBuffer.mk' 4) [65, 66, 67, 68]).2).head) ∧
      0 < ([] : List Nat).length) := by
  decide

/-- C7 amended: `getReadView` returns `none` exactly when `dataSize() = 0`;
otherwise it returns the contiguous run starting at `head`, and whenever the
buffer is not in the completely full state its length equals
`min(dataSize, capacity - head)` and is strictly positive.  In the full
state (`full` set, `head = tail`) the returned view instead has length 0. -/
theorem c7_getReadView_amended (b : CircularBuffer) (hwf : CircularBuffer.WF b) :
    (CircularBuffer.getReadView b = none ↔ CircularBuffer.dataSize b = 0) ∧
    (∀ s v, CircularBuffer.getReadView b = some (s, v) →
      s = b.head ∧ v = (b.buffer.drop b.head).take v.length ∧
      (b.full = false →
        v.length = min (CircularBuffer.dataSize b) (b.capacity - b.head) ∧ 0 < v.length)) := by
  obtain ⟨hlen, hh, ht⟩ := hwf
  constructor
  · unfold CircularBuffer.getReadView
    split
    · simp_all
    · simp_all
  · intro s v hv
    unfold CircularBuffer.getReadView at hv
    split at hv
    · exact absurd hv (by simp)
    · rename_i hds
      injection hv with hv'
      injection hv' with hs hvv
      subst hs
      refine ⟨rfl, ?_, ?_⟩
      · rw [← hvv, List.take_eq_take, List.length_take]
        omega
      · intro hfull
        rw [← hvv, List.length_take, List.length_drop, hlen]
        unfold CircularBuffer.dataSize at hds ⊢
        rw [hfull] at hds ⊢
        by_cases hle : b.head ≤ b.tail
        · simp only [if_neg (by simp : ¬(false = true)), if_pos hle] at hds ⊢
          constructor <;> simp only [Nat.min_def] <;> (repeat' split) <;> omega
        · simp only [if_neg (by simp : ¬(false = true)), if_neg hle] at hds ⊢
          constructor <;> simp only [Nat.min_def] <;> (repeat' split) <;> omega

/-- Witness for the amended C7 at a concrete non-full state. -/
theorem c7_getReadView_amended_witness :
    CircularBuffer.getReadView ((CircularBuffer.writeFromBytes (CircularBuffer.mk' 4) [65, 66]).2) =
      some (0, [65, 66]) ∧
    ([65, 66] : List Nat).length =
      min (CircularBuffer.dataSize ((CircularBuffer.writeFromBytes (CircularBuffer.mk' 4) [65, 66]).2))
        (((CircularBuffer.writeFromBytes (CircularBuffer.mk' 4) [65, 66]).2).capacity -
          ((CircularBuffer.writeFromBytes (CircularBuffer.mk' 4) [65, 66]).2).head) ∧
    0 < ([65, 66] : List Nat).length :=
  ⟨by decide,
    ((c7_getReadView_amended ((CircularBuffer.writeFromBytes (CircularBuffer.mk' 4) [65, 66]).2)
        (by refine ⟨?_, ?_, ?_⟩ <;> decide)).2 0 [65, 66] (by decide)).2.2 (by decide)⟩

/-- C10: `empty()` returns `head == tail`; in the completely full state
(`full` flag set, `head = tail`, positive capacity) `empty()` reports `true`
while `dataSize()` equals the capacity and is nonzero, so `empty()` does not
coincide with `dataSize() == 0` there. -/
theorem c10_empty_head_tail (b : CircularBuffer) :
    (CircularBuffer.empty b = true ↔ b.head = b.tail) ∧
    (b.full = true → b.head = b.tail → 0 < b.capacity →
      CircularBuffer.empty b = true ∧ CircularBuffer.dataSize b = b.capacity ∧
        CircularBuffer.dataSize b ≠ 0) := by
  constructor
  · simp [CircularBuffer.empty]
  · intro hf hht hc
    refine ⟨?_, ?_, ?_⟩
    · simp [CircularBuffer.empty, hht]
    · simp [CircularBuffer.dataSize, hf]
    · simp [CircularBuffer.dataSize, hf]
      omega

/-- Witness for C10 at the reachable full state of a capacity-4 buffer. -/
theorem c10_empty_head_tail_witness :
    CircularBuffer.empty ((CircularBuffer.writeFromBytes (CircularBuffer.mk' 4) [65, 66, 67, 68]).2) = true ∧
    CircularBuffer.dataSize ((CircularBuffer.writeFromBytes (CircularBuffer.mk' 4) [65, 66, 67, 68]).2) =
      ((CircularBuffer.writeFromBytes (CircularBuffer.mk' 4) [65, 66, 67, 68]).2).capacity ∧
    CircularBuffer.dataSize ((CircularBuffer.writeFromBytes (CircularBuffer.mk' 4) [65, 66, 67, 68]).2) ≠ 0 :=
  (c10_empty_head_tail ((CircularBuffer.writeFromBytes (CircularBuffer.mk' 4) [65, 66, 67, 68]).2)).2
    (by decide) (by decide) (by decide)

/-- Embeds `enum class ParseResult` from src/message.h. -/
inductive ParseResult where
  | FINISHED
  | ERROR
  | CONTINUE
deriving DecidableEq, Repr

/-- Embeds `class Message` from src/message.h.  The `string_view` members are
modelled as the byte lists they expose; `_checksum` is the cumulative
checksum accumulator (`size_t`; kept as an unbounded `Nat`, see
`Message.setMessageField` for the one subtraction). -/
structure Message where
  beginString : List Nat := []
  bodyLength : List Nat := []
  checkSum : List Nat := []
  msgType : List Nat := []
  senderCompID : List Nat := []
  targetCompID : List Nat := []
  clOrdID : List Nat := []
  seqNumber : List Nat := []
  otherFields : List (List Nat × List Nat) := []
  finished : Bool := false
  _checksum : Nat := 0
deriving DecidableEq, Repr

namespace Message

/-- The default constructor `Message() : _checksum(0)`. -/
def init : Message := {}

/-- FIX field delimiter SOH = `'\x01'`. -/
def SOH : Nat := 1

/-- Constant `Message::BeginString = "8="`. -/
def BeginString : List Nat := ascii "8="

/-- Constant `Message::BodyLength = "9="`. -/
def BodyLength : List Nat := ascii "9="

/-- Constant `Message::MsgType = "35="`. -/
def MsgType : List Nat := ascii "35="

/-- Constant `Message::CheckSum = "10="`. -/
def CheckSum : List Nat := ascii "10="

/-- Constant `Message::SenderCompID = "49="`. -/
def SenderCompID : List Nat := ascii "49="

/-- Constant `Message::TargetCompID = "56="`. -/
def TargetCompID : List Nat := ascii "56="

/-- Constant `Message::ClOrdID = "11="`. -/
def ClOrdID : List Nat := ascii "11="

/-- Constant `Message::SeqNumber = "34="`. -/
def SeqNumber : List Nat := ascii "34="

end Message

/-- Accumulator for the digit run consumed by `std::from_chars`: returns the
value of the longest digit prefix together with how many digits it has. -/
def digitsAux : Nat → List Nat → Nat × Nat
  | acc, [] => (acc, 0)
  | acc, c :: cs =>
    if 48 ≤ c ∧ c ≤ 57 then
      let r := digitsAux (acc * 10 + (c - 48)) cs
      (r.1, r.2 + 1)
    else (acc, 0)

/-- Models `std::from_chars` for `int`: an optional leading minus sign then
the longest digit run.  First component is the parsed value, `none` for
`invalid_argument` (no digits) or `result_out_of_range` (outside the 32-bit
`int` range, in which case the value object is left untouched); second
component is the number of characters consumed (`ptr - first`). -/
def fromCharsInt (s : List Nat) : Option Int × Nat :=
  match s with
  | [] => (none, 0)
  | c :: cs =>
    if c = 45 then
      let r := digitsAux 0 cs
      if r.2 = 0 then (none, 0)
      else if (r.1 : Int) ≤ 2147483648 then (some (-(r.1 : Int)), r.2 + 1)
      else (none, r.2 + 1)
    else
      let r := digitsAux 0 s
      if r.2 = 0 then (none, 0)
      else if (r.1 : Int) ≤ 2147483647 then (some (r.1 : Int), r.2)
      else (none, r.2)

/-- Exit status of the tag-scanning loop
`while('=' != data[pos] && pos < length)` in `Message::parseFixMessage`:
`found d` when `'='` sits `d` bytes after the scan start (all `d` bytes
before it are digits), `bad d` when the byte `d` positions in is not a digit
(the `data[pos] < '0' || data[pos] > '9'` early `ERROR` return), and `atEnd`
when the run ends before either. -/
inductive TagScanOut where
  | found (d : Nat)
  | atEnd
  | bad (d : Nat)
deriving DecidableEq, Repr

/-- Embeds the tag-scanning loop of `Message::parseFixMessage` on the suffix
of the read view that starts at the current position.  The second component
is the trace of (relative) indices at which the loop condition dereferences
`data[pos]`: the C++ condition evaluates `'=' != data[pos]` before testing
`pos < length`, so when the run ends without a terminator the trace contains
the index one past the suffix (the read of `data[length]`). -/
def tagScan : List Nat → TagScanOut × List Nat
  | [] => (.atEnd, [0])
  | c :: cs =>
    if c = 61 then (.found 0, [0])
    else if c < 48 ∨ 57 < c then (.bad 0, [0])
    else
      match tagScan cs with
      | (.found d, rs) => (.found (d + 1), 0 :: rs.map (fun i => i + 1))
      | (.atEnd, rs) => (.atEnd, 0 :: rs.map (fun i => i + 1))
      | (.bad d, rs) => (.bad (d + 1), 0 :: rs.map (fun i => i + 1))

/-- Exit status of the value-scanning loop
`while(SOH != data[pos] && pos < length)`. -/
inductive ValueScanOut where
  | found (d : Nat)
  | atEnd
deriving DecidableEq, Repr

/-- Embeds the value-scanning loop of `Message::parseFixMessage`, with the
same dereference trace as `tagScan` (the condition again reads `data[pos]`
before the bounds test). -/
def valueScan : List Nat → ValueScanOut × List Nat
  | [] => (.atEnd, [0])
  | c :: cs =>
    if c = 1 then (.found 0, [0])
    else
      match valueScan cs with
      | (.found d, rs) => (.found (d + 1), 0 :: rs.map (fun i => i + 1))
      | (.atEnd, rs) => (.atEnd, 0 :: rs.map (fun i => i + 1))

/-- Embeds `Message::setMessageField`.  The tag is parsed with
`std::from_chars`; on a parse failure the function returns without storing
anything.  For tag 10 the accumulator drops the bytes of the `10=<val>SOH`
field itself (`'1' + '0' + '=' + SOH` and every value byte); those bytes
were added by the caller immediately before this call, so the `size_t`
subtraction cannot wrap and plain `Nat` subtraction is exact. -/
def Message.setMessageField (m : Message) (tag value : List Nat) : Message :=
  match (fromCharsInt tag).1 with
  | none => m
  | some t =>
    if t = 8 then { m with beginString := value }
    else if t = 9 then { m with bodyLength := value }
    else if t = 10 then
      { m with checkSum := value,
               _checksum := m._checksum - (49 + 48 + 61 + 1 + value.sum),
               finished := true }
    else if t = 35 then { m with msgType := value }
    else if t = 49 then { m with senderCompID := value }
    else if t = 56 then { m with targetCompID := value }
    else if t = 11 then { m with clOrdID := value }
    else if t = 34 then { m with seqNumber := value }
    else { m with otherFields := m.otherFields ++ [(tag, value)] }

/-- Embeds the `if(message.finished)` block of `Message::parseFixMessage`:
parse the received tag-10 value with `std::from_chars` (`ERROR` on failure)
and compare it against `_checksum % 256`; equality gives `FINISHED`,
anything else `ERROR`. -/
def Message.finishCheck (b1 : CircularBuffer) (m3 : Message) :
    ParseResult × CircularBuffer × Message :=
  match (fromCharsInt m3.checkSum).1 with
  | none => (.ERROR, b1, m3)
  | some r =>
    if ((m3._checksum % 256 : Nat) : Int) = r then (.FINISHED, b1, m3)
    else (.ERROR, b1, m3)

/-- Embeds the field loop `while (pos < length)` of `Message::parseFixMessage`
on the unprocessed suffix of the read view.  Each completed field adds the
scanned bytes (tag, `'='`, value, SOH) to `_checksum`, stores the field and
consumes it from the ring; an incomplete tag or value returns `CONTINUE`
keeping the bytes already added to `_checksum` but leaving the partial
field's bytes in the ring.  After the tag-10 field the running checksum is
compared with the parsed tag-10 value.  `fuel` only bounds the recursion;
callers pass `length + 1`, which `Message.parseFields_fuel` shows is enough
for the bound never to bite. -/
def Message.parseFields (fuel : Nat) (rest : List Nat) (b : CircularBuffer) (m : Message) :
    ParseResult × CircularBuffer × Message :=
  match fuel with
  | 0 => (.CONTINUE, b, m)
  | fuel + 1 =>
    match rest with
    | [] => (.CONTINUE, b, m)
    | _ :: _ =>
      match (tagScan rest).1 with
      | .bad d => (.ERROR, b, { m with _checksum := m._checksum + (rest.take d).sum })
      | .atEnd => (.CONTINUE, b, { m with _checksum := m._checksum + rest.sum })
      | .found d =>
        let tag := rest.take d
        let afterTag := rest.drop (d + 1)
        let m1 := { m with _checksum := m._checksum + tag.sum + 61 }
        match (valueScan afterTag).1 with
        | .atEnd => (.CONTINUE, b, { m1 with _checksum := m1._checksum + afterTag.sum })
        | .found e =>
          let value := afterTag.take e
          let m2 := { m1 with _checksum := m1._checksum + value.sum + 1 }
          let m3 := Message.setMessageField m2 tag value
          let b1 := CircularBuffer.consume b (d + 1 + e + 1)
          if m3.finished then Message.finishCheck b1 m3
          else Message.parseFields fuel (afterTag.drop (e + 1)) b1 m3

/-- Embeds `Message::parseFixMessage`: obtain the read view (returning
`CONTINUE` when the buffer reports no data) and run the field loop over it. -/
def Message.parseFixMessage (b : CircularBuffer) (m : Message) :
    ParseResult × CircularBuffer × Message :=
  match CircularBuffer.getReadView b with
  | none => (.CONTINUE, b, m)
  | some (_, view) => Message.parseFields (view.length + 1) view b m

/-- Embeds `Message::reset`. -/
def Message.reset (_ : Message) : Message :=
  { beginString := [], bodyLength := [], checkSum := [], msgType := [],
    senderCompID := [], targetCompID := [], clOrdID := [], seqNumber := [],
    otherFields := [], finished := false, _checksum := 0 }

/-- Embeds `Message::hasRequiredFields`. -/
def Message.hasRequiredFields (m : Message) : Bool :=
  !m.beginString.isEmpty && !m.bodyLength.isEmpty &&
  !m.msgType.isEmpty && !m.senderCompID.isEmpty &&
  !m.targetCompID.isEmpty && !m.seqNumber.isEmpty

/-- The fuel argument of `Message.parseFields` is inert: any two fuels larger
than the suffix length give the same result, so `length + 1` (what
`parseFixMessage` passes) fully evaluates the loop. -/
theorem Message.parseFields_fuel (f : Nat) :
    ∀ (g : Nat) (rest : List Nat) (b : CircularBuffer) (m : Message),
      rest.length < f → rest.length < g →
      Message.parseFields f rest b m = Message.parseFields g rest b m := by
  induction f with
  | zero => intro g rest b m hf hg; omega
  | succ f ih =>
    intro g rest b m hf hg
    match g, hg with
    | g + 1, hg =>
      cases rest with
      | nil => rfl
      | cons c cs =>
        cases htag : (tagScan (c :: cs)).1 with
        | bad d => simp only [Message.parseFields, htag]
        | atEnd => simp only [Message.parseFields, htag]
        | found d =>
          simp only [Message.parseFields, htag]
          cases hval : (valueScan (List.drop (d + 1) (c :: cs))).1 with
          | atEnd => simp only [hval]
          | found e =>
            simp only [hval]
            split
            · rfl
            · simp only [List.length_cons] at hf hg
              apply ih
              · simp only [List.length_drop, List.length_cons]
                omega
              · simp only [List.length_drop, List.length_cons]
                omega

/-- A well-formed minimal Logon message
`8=F<SOH>9=5<SOH>35=A<SOH>10=079<SOH>` (the byte sum of everything before
the tag-10 field is 591, and 591 mod 256 = 79). -/
def fixMsgA : List Nat :=
  [56, 61, 70, 1, 57, 61, 53, 1, 51, 53, 61, 65, 1, 49, 48, 61, 48, 55, 57, 1]

/-- First chunk of `fixMsgA` with the boundary inside the tag-35 field:
`8=F<SOH>9=5<SOH>35=`. -/
def fixChunk1 : List Nat := [56, 61, 70, 1, 57, 61, 53, 1, 51, 53, 61]

/-- Remainder of `fixMsgA`: `A<SOH>10=079<SOH>`. -/
def fixChunk2 : List Nat := [65, 1, 49, 48, 61, 48, 55, 57, 1]

/-- First parser call of the chunked C2 scenario: chunk 1 arrives on the
socket and `parseFixMessage` runs. -/
def c2Call1 : ParseResult × CircularBuffer × Message :=
  Message.parseFixMessage (CircularBuffer.writeFromSocket (CircularBuffer.mk' 64) fixChunk1).2
    Message.init

/-- Second parser call of the chunked C2 scenario: chunk 2 arrives and
`parseFixMessage` re-scans from the start of the partial tag-35 field. -/
def c2Call2 : ParseResult × CircularBuffer × Message :=
  Message.parseFixMessage (CircularBuffer.writeFromSocket c2Call1.2.1 fixChunk2).2 c2Call1.2.2

/-- C2 is a code bug: parsing `fixMsgA` delivered whole returns `FINISHED`
with final running checksum 591, but delivering it as `fixChunk1` then
`fixChunk2` (boundary inside the tag-35 field) makes the second call return
`ERROR`, because the partial field's bytes `3`, `5`, `=` were added to
`_checksum` by the first call and are added again when the field is
re-scanned, leaving the accumulator at 756 ≠ 591 (mod 256: 244 ≠ 79). -/
theorem c2_rescan_double_counts_checksum :
    (Message.parseFixMessage (CircularBuffer.writeFromBytes (CircularBuffer.mk' 64) fixMsgA).2
        Message.init).1 = ParseResult.FINISHED ∧
    (Message.parseFixMessage (CircularBuffer.writeFromBytes (CircularBuffer.mk' 64) fixMsgA).2
        Message.init).2.2._checksum = 591 ∧
    c2Call1.1 = ParseResult.CONTINUE ∧
    c2Call2.1 = ParseResult.ERROR ∧
    c2Call2.2.2._checksum = 756 := by
  decide

/-- A ring buffer holding exactly the digit bytes `3`, `4` (an incomplete
tag: no `=` terminator in the readable run). -/
def c9Buf : CircularBuffer := (CircularBuffer.writeFromBytes (CircularBuffer.mk' 8) [51, 52]).2

/-- C9 is a code bug: on a read view holding only `34` (length 2) the tag
scan runs off the end, and its dereference trace contains index 2 — the
loop condition `'=' != data[pos] && pos < length` reads `data[length]`,
one byte past the view, before the bounds test can stop it.  The call
still returns `CONTINUE`. -/
theorem c9_scan_reads_past_view :
    CircularBuffer.getReadView c9Buf = some (0, [51, 52]) ∧
    (tagScan [51, 52]).1 = TagScanOut.atEnd ∧
    ([51, 52] : List Nat).length ∈ (tagScan [51, 52]).2 ∧
    (Message.parseFixMessage c9Buf Message.init).1 = ParseResult.CONTINUE := by
  decide

/-- The tag-10 validation block leaves the message unchanged. -/
theorem Message.finishCheck_snd (b1 : CircularBuffer) (m3 : Message) :
    (Message.finishCheck b1 m3).2.2 = m3 := by
  unfold Message.finishCheck
  cases (fromCharsInt m3.checkSum).1 with
  | none => rfl
  | some r =>
    simp only []
    split <;> rfl

/-- The validation block answers `FINISHED` only when the parsed tag-10
value exists and equals the running checksum mod 256. -/
theorem Message.finishCheck_finished (b1 : CircularBuffer) (m3 : Message)
    (h : (Message.finishCheck b1 m3).1 = ParseResult.FINISHED) :
    ∃ c, (fromCharsInt m3.checkSum).1 = some c ∧
      ((m3._checksum % 256 : Nat) : Int) = c := by
  unfold Message.finishCheck at h
  cases hfc : (fromCharsInt m3.checkSum).1 with
  | none => rw [hfc] at h; cases h
  | some r =>
    rw [hfc] at h
    simp only [] at h
    split at h
    · exact ⟨r, rfl, by assumption⟩
    · cases h

/-- The validation block answers `ERROR` whenever the parsed tag-10 value
differs from the running checksum mod 256. -/
theorem Message.finishCheck_mismatch (b1 : CircularBuffer) (m3 : Message) (c : Int)
    (hc : (fromCharsInt m3.checkSum).1 = some c)
    (hne : ((m3._checksum % 256 : Nat) : Int) ≠ c) :
    (Message.finishCheck b1 m3).1 = ParseResult.ERROR := by
  unfold Message.finishCheck
  rw [hc]
  simp only []
  split
  · next heq => exact absurd heq hne
  · rfl

/-- Checksum gate of the field loop, by induction on the fuel: the loop
returns `FINISHED` only with a matching checksum, and returns `ERROR` when
a message completes (entering with `finished = false`) with a parseable
tag-10 value that differs from the running checksum mod 256. -/
theorem Message.parseFields_checksum (fuel : Nat) :
    ∀ (rest : List Nat) (b : CircularBuffer) (m : Message),
      ((Message.parseFields fuel rest b m).1 = ParseResult.FINISHED →
        ∃ c, (fromCharsInt ((Message.parseFields fuel rest b m).2.2).checkSum).1 = some c ∧
          ((((Message.parseFields fuel rest b m).2.2)._checksum % 256 : Nat) : Int) = c) ∧
      (m.finished = false →
        ((Message.parseFields fuel rest b m).2.2).finished = true →
        ∀ c, (fromCharsInt ((Message.parseFields fuel rest b m).2.2).checkSum).1 = some c →
          ((((Message.parseFields fuel rest b m).2.2)._checksum % 256 : Nat) : Int) ≠ c →
          (Message.parseFields fuel rest b m).1 = ParseResult.ERROR) := by
  induction fuel with
  | zero =>
    intro rest b m
    refine ⟨?_, ?_⟩
    · intro h
      simp [Message.parseFields] at h
    · intro hm hf
      simp only [Message.parseFields] at hf
      rw [hm] at hf
      exact absurd hf (by simp)
  | succ fuel ih =>
    intro rest b m
    cases rest with
    | nil =>
      refine ⟨?_, ?_⟩
      · intro h
        simp [Message.parseFields] at h
      · intro hm hf
        simp only [Message.parseFields] at hf
        rw [hm] at hf
        exact absurd hf (by simp)
    | cons c cs =>
      cases htag : (tagScan (c :: cs)).1 with
      | bad d =>
        refine ⟨?_, ?_⟩
        · intro h
          simp only [Message.parseFields, htag] at h
          simp at h
        · intro hm hf c' hc hne
          simp only [Message.parseFields, htag]
      | atEnd =>
        refine ⟨?_, ?_⟩
        · intro h
          simp only [Message.parseFields, htag] at h
          simp at h
        · intro hm hf
          simp only [Message.parseFields, htag] at hf
          rw [hm] at hf
          exact absurd hf (by simp)
      | found d =>
        cases hval : (valueScan (List.drop (d + 1) (c :: cs))).1 with
        | atEnd =>
          refine ⟨?_, ?_⟩
          · intro h
            simp only [Message.parseFields, htag, hval] at h
            simp at h
          · intro hm hf
            simp only [Message.parseFields, htag, hval] at hf
            rw [hm] at hf
            exact absurd hf (by simp)
        | found e =>
          simp only [Message.parseFields, htag, hval]
          split
          · next hfin =>
            refine ⟨?_, ?_⟩
            · intro h
              rw [Message.finishCheck_snd]
              exact Message.finishCheck_finished _ _ h
            · intro hm hf c' hc hne
              rw [Message.finishCheck_snd] at hc hne
              exact Message.finishCheck_mismatch _ _ c' hc hne
          · next hfin =>
            refine ⟨?_, ?_⟩
            · intro h
              exact (ih _ _ _).1 h
            · intro hm hf c' hc hne
              refine (ih _ _ _).2 ?_ hf c' hc hne
              rw [Bool.not_eq_true] at hfin
              exact hfin

/-- C5: `parseFixMessage` returns `FINISHED` only when the running checksum
mod 256 (with the tag-10 field's own bytes excluded by `setMessageField`)
equals the value `std::from_chars` reads from tag 10; and whenever a call
that starts on an unfinished message ends with `finished` set and a
parseable tag-10 value different from the running checksum mod 256, it
returns `ERROR`. -/
theorem c5_checksum_gate (b : CircularBuffer) (m : Message) (hm : m.finished = false) :
    ((Message.parseFixMessage b m).1 = ParseResult.FINISHED →
      ∃ c, (fromCharsInt ((Message.parseFixMessage b m).2.2).checkSum).1 = some c ∧
        ((((Message.parseFixMessage b m).2.2)._checksum % 256 : Nat) : Int) = c) ∧
    (∀ c, ((Message.parseFixMessage b m).2.2).finished = true →
      (fromCharsInt ((Message.parseFixMessage b m).2.2).checkSum).1 = some c →
      ((((Message.parseFixMessage b m).2.2)._checksum % 256 : Nat) : Int) ≠ c →
      (Message.parseFixMessage b m).1 = ParseResult.ERROR) := by
  unfold Message.parseFixMessage
  cases hv : CircularBuffer.getReadView b with
  | none =>
    refine ⟨?_, ?_⟩
    · intro h
      simp at h
    · intro c' hf
      simp only [] at hf
      rw [hm] at hf
      exact absurd hf (by simp)
  | some sv =>
    obtain ⟨s, view⟩ := sv
    have hmain := Message.parseFields_checksum (view.length + 1) view b m
    exact ⟨hmain.1, fun c' hf hc hne => hmain.2 hm hf c' hc hne⟩

/-- The message of `fixMsgA` with its checksum corrupted to `080`:
`8=F<SOH>9=5<SOH>35=A<SOH>10=080<SOH>` (true checksum is 79). -/
def fixMsgBadChk : List Nat :=
  [56, 61, 70, 1, 57, 61, 53, 1, 51, 53, 61, 65, 1, 49, 48, 61, 48, 56, 48, 1]

/-- Witness for C5: on the corrupted message the completed parse has
`finished = true`, tag-10 parses to 80 ≠ 79, and the call returns `ERROR`. -/
theorem c5_checksum_gate_witness :
    (Message.parseFixMessage
        (CircularBuffer.writeFromBytes (CircularBuffer.mk' 64) fixMsgBadChk).2
        Message.init).1 = ParseResult.ERROR :=
  (c5_checksum_gate (CircularBuffer.writeFromBytes (CircularBuffer.mk' 64) fixMsgBadChk).2
      Message.init rfl).2 80 (by decide) (by decide) (by decide)

/-- Embeds `class Connection` from src/worker.h: per-connection read and
write buffers. -/
structure Connection where
  readBuffer : List Nat := []
  writeBuffer : List Nat := []
deriving DecidableEq, Repr

namespace WorkerThread

/-- Embeds `WorkerThread::processLogon`: the sequence of
`writeBuffer.insert`/`push_back` calls appending `8=`, `9=`, `35=`, `34=`,
`49=`, `56=`, the `otherFields`, and `10=`, each value taken from the parsed
request and each field terminated by SOH.  The source writes
`message.checksum` for the final field; the member of `class Message` is
`checkSum`. -/
def processLogon (message : Message) (conn : Connection) : Connection :=
  let wb := conn.writeBuffer ++ Message.BeginString
  let wb := wb ++ message.beginString
  let wb := wb ++ [Message.SOH]
  let wb := wb ++ Message.BodyLength
  let wb := wb ++ message.bodyLength
  let wb := wb ++ [Message.SOH]
  let wb := wb ++ Message.MsgType
  let wb := wb ++ message.msgType
  let wb := wb ++ [Message.SOH]
  let wb := wb ++ Message.SeqNumber
  let wb := wb ++ message.seqNumber
  let wb := wb ++ [Message.SOH]
  let wb := wb ++ Message.SenderCompID
  let wb := wb ++ message.senderCompID
  let wb := wb ++ [Message.SOH]
  let wb := wb ++ Message.TargetCompID
  let wb := wb ++ message.targetCompID
  let wb := wb ++ [Message.SOH]
  let wb := message.otherFields.foldl
    (fun acc fld => acc ++ fld.1 ++ [61] ++ fld.2 ++ [Message.SOH]) wb
  let wb := wb ++ Message.CheckSum
  let wb := wb ++ message.checkSum
  let wb := wb ++ [Message.SOH]
  { conn with writeBuffer := wb }

/-- Embeds `WorkerThread::processData`: only logon messages
(`"A" == message.msgType`) are processed. -/
def processData (message : Message) (conn : Connection) : Connection :=
  if message.msgType = ascii "A" then processLogon message conn else conn

/-- Embeds `WorkerThread::closeConnection`: `close(fd)` plus
`connections.erase(fd)` (the epoll deregistration has no counterpart in the
state).  The second component of results built from it records the closed
descriptor. -/
def closeConnection (fd : Nat) (conns : List Nat) : List Nat :=
  conns.filter (fun x => !(x == fd))

/-- Outcome of the `read` call inside `CircularBuffer::writeFromSocket` as
seen by `WorkerThread::processFixStream`: bytes delivered (an empty list is
`read` returning 0, peer closed), `EAGAIN`/`EWOULDBLOCK`, or another error. -/
inductive ReadEvent where
  | bytes (bs : List Nat)
  | eagain
  | rdErr
deriving DecidableEq, Repr

/-- State touched by one `WorkerThread::processFixStream` call: the
connection table (as the set of registered descriptors), the thread-local
ring buffer and `Message` for the descriptor, and its `Connection`. -/
structure FixStreamState where
  conns : List Nat
  buffer : CircularBuffer
  message : Message
  conn : Connection
deriving DecidableEq, Repr

/-- Embeds `WorkerThread::processFixStream` for one socket readiness event.
Every arm of the inner `switch` returns, so the outer `while(true)` never
iterates twice and the call performs one `writeFromSocket` and at most one
`parseFixMessage`.  On `EAGAIN` it returns `false`; on a read error or
`read() == 0` it calls `closeConnection`; after a parse it returns `true`
only for `FINISHED` (feeding the message to `processData`) and `false`
otherwise — no arm closes the connection.  When `writeFromSocket` reports a
full buffer (`-1`) the C++ consults an errno no call has set;
`staleErrnoEagain` carries that stale value. -/
def processFixStream (fd : Nat) (st : FixStreamState) (ev : ReadEvent)
    (staleErrnoEagain : Bool) : Bool × FixStreamState × Option Nat :=
  match ev with
  | .eagain => (false, st, none)
  | .rdErr => (false, { st with conns := closeConnection fd st.conns }, some fd)
  | .bytes bs =>
    let r := CircularBuffer.writeFromSocket st.buffer bs
    if r.1 < 0 then
      if staleErrnoEagain then (false, st, none)
      else (false, { st with conns := closeConnection fd st.conns }, some fd)
    else if r.1 = 0 then
      (false, { st with conns := closeConnection fd st.conns, buffer := r.2 }, some fd)
    else
      let p := Message.parseFixMessage r.2 st.message
      match p.1 with
      | ParseResult.FINISHED =>
        (true, { st with buffer := p.2.1, message := p.2.2,
                         conn := processData p.2.2 st.conn }, none)
      | _ => (false, { st with buffer := p.2.1, message := p.2.2 }, none)

end WorkerThread

/-- One serialized FIX field: tag prefix, value, SOH. -/
def fixField (tag : List Nat) (v : List Nat) : List Nat := tag ++ v ++ [Message.SOH]

theorem otherFields_foldl (l : List (List Nat × List Nat)) (acc : List Nat) :
    l.foldl (fun a fld => a ++ fld.1 ++ [61] ++ fld.2 ++ [Message.SOH]) acc =
      acc ++ (l.map (fun fld => fld.1 ++ [61] ++ fld.2 ++ [Message.SOH])).flatten := by
  induction l generalizing acc with
  | nil => simp
  | cons x xs ih =>
    rw [List.foldl_cons, ih]
    simp [List.append_assoc]

/-- Modelled from the spec's words for C1, not from the source: the logon
echo as the claim demands it, with tag 49 carrying the request's
`targetCompID` and tag 56 the request's `senderCompID` (CompIDs swapped). -/
def logonEchoSwappedSpec (m : Message) (wb : List Nat) : List Nat :=
  wb ++ fixField Message.BeginString m.beginString
     ++ fixField Message.BodyLength m.bodyLength
     ++ fixField Message.MsgType m.msgType
     ++ fixField Message.SeqNumber m.seqNumber
     ++ fixField Message.SenderCompID m.targetCompID
     ++ fixField Message.TargetCompID m.senderCompID
     ++ (m.otherFields.map (fun fld => fld.1 ++ [61] ++ fld.2 ++ [Message.SOH])).flatten
     ++ fixField Message.CheckSum m.checkSum

/-- A parsed logon request whose sender (`CL`) and target (`SR`) differ. -/
def c1Msg : Message :=
  { beginString := [70], bodyLength := [53], msgType := [65], seqNumber := [49],
    senderCompID := [67, 76], targetCompID := [83, 82], checkSum := [48, 55, 57] }

/-- C1 counterexample: on a request with distinct CompIDs the echo built by
`processLogon` is not the swapped echo the claim describes — tag 49 carries
the request's `senderCompID`, not its `targetCompID`. -/
theorem c1_counterexample :
    (WorkerThread.processLogon c1Msg {}).writeBuffer ≠ logonEchoSwappedSpec c1Msg [] := by
  decide

/-- C1 amended: the echo serializes, in order, `8=`, `9=`, `35=`, `34=`,
then `49=` with the request's own `senderCompID` and `56=` with the
request's own `targetCompID` (no swap), all `otherFields` in original
order, then `10=`, each field SOH-terminated, appended to the connection's
outbound buffer. -/
theorem c1_logon_echo_amended (m : Message) (conn : Connection) :
    (WorkerThread.processLogon m conn).writeBuffer =
      conn.writeBuffer
        ++ fixField Message.BeginString m.beginString
        ++ fixField Message.BodyLength m.bodyLength
        ++ fixField Message.MsgType m.msgType
        ++ fixField Message.SeqNumber m.seqNumber
        ++ fixField Message.SenderCompID m.senderCompID
        ++ fixField Message.TargetCompID m.targetCompID
        ++ (m.otherFields.map (fun fld => fld.1 ++ [61] ++ fld.2 ++ [Message.SOH])).flatten
        ++ fixField Message.CheckSum m.checkSum ∧
    (WorkerThread.processLogon m conn).readBuffer = conn.readBuffer := by
  unfold WorkerThread.processLogon
  refine ⟨?_, rfl⟩
  simp only [otherFields_foldl]
  simp [fixField, List.append_assoc]

/-- State before the C4 scenario: descriptor 5 registered, fresh ring
buffer, fresh message. -/
def c4State : WorkerThread.FixStreamState :=
  ⟨[5], CircularBuffer.mk' 32, Message.init, {}⟩

/-- C4 counterexample: bytes `8@` make `parseFixMessage` return `ERROR`
(invalid tag character), yet `processFixStream` neither closes descriptor 5
nor erases it from the table — it just returns `false`. -/
theorem c4_counterexample :
    (Message.parseFixMessage
        (CircularBuffer.writeFromSocket (CircularBuffer.mk' 32) [56, 64]).2 Message.init).1 =
      ParseResult.ERROR ∧
    (WorkerThread.processFixStream 5 c4State (.bytes [56, 64]) false).1 = false ∧
    (WorkerThread.processFixStream 5 c4State (.bytes [56, 64]) false).2.1.conns = [5] ∧
    (WorkerThread.processFixStream 5 c4State (.bytes [56, 64]) false).2.2 = none := by
  decide

/-- C4 amended: when the socket delivers bytes and `parseFixMessage`
returns `Error`, the worker merely returns `false`: the connection table is
unchanged and no descriptor is closed.  Connections are closed and erased
only on a read error other than `EAGAIN`, on `read() == 0` (peer close), or
on the write path — not on parse errors. -/
theorem c4_parse_error_no_close_amended (fd : Nat) (st : WorkerThread.FixStreamState)
    (bs : List Nat) (stale : Bool)
    (hn : 0 < (CircularBuffer.writeFromSocket st.buffer bs).1)
    (he : (Message.parseFixMessage (CircularBuffer.writeFromSocket st.buffer bs).2
            st.message).1 = ParseResult.ERROR) :
    (WorkerThread.processFixStream fd st (.bytes bs) stale).1 = false ∧
    (WorkerThread.processFixStream fd st (.bytes bs) stale).2.1.conns = st.conns ∧
    (WorkerThread.processFixStream fd st (.bytes bs) stale).2.2 = none := by
  have h1 : ¬ ((CircularBuffer.writeFromSocket st.buffer bs).1 < 0) := by omega
  have h2 : ¬ ((CircularBuffer.writeFromSocket st.buffer bs).1 = 0) := by omega
  simp only [WorkerThread.processFixStream, if_neg h1, if_neg h2, he]
  simp

/-- Witness for the amended C4 at the concrete `8@` input. -/
theorem c4_parse_error_no_close_amended_witness :
    (WorkerThread.processFixStream 5 c4State (.bytes [56, 64]) true).1 = false ∧
    (WorkerThread.processFixStream 5 c4State (.bytes [56, 64]) true).2.1.conns = c4State.conns ∧
    (WorkerThread.processFixStream 5 c4State (.bytes [56, 64]) true).2.2 = none :=
  c4_parse_error_no_close_amended 5 c4State [56, 64] true (by decide) (by decide)

/-- Two copies of `fixMsgA` concatenated, delivered in one socket read. -/
def c3Blob : List Nat := fixMsgA ++ fixMsgA

/-- First parser call of the C3 scenario on the two-message blob. -/
def c3Call1 : ParseResult × CircularBuffer × Message :=
  Message.parseFixMessage (CircularBuffer.writeFromSocket (CircularBuffer.mk' 64) c3Blob).2
    Message.init

/-- The `processFixStream` call that receives the two-message blob. -/
def c3Worker : Bool × WorkerThread.FixStreamState × Option Nat :=
  WorkerThread.processFixStream 5 ⟨[5], CircularBuffer.mk' 64, Message.init, {}⟩
    (WorkerThread.ReadEvent.bytes c3Blob) false

/-- C3 is a code bug: with two well-formed messages in the ring,
`processFixStream` returns after a single `FINISHED`, the 20 bytes of the
second message stay in the ring, and — since no caller ever invokes
`Message::reset` — the retained `Message` still has `finished = true` and
the stale `_checksum`/`checkSum` of message one, so the next
`parseFixMessage` call validates the first complete field of message two
against them and returns `ERROR` instead of a second `FINISHED`. -/
theorem c3_second_message_errors_without_reset :
    c3Call1.1 = ParseResult.FINISHED ∧
    CircularBuffer.dataSize c3Call1.2.1 = 20 ∧
    c3Call1.2.2.finished = true ∧
    (Message.parseFixMessage c3Call1.2.1 c3Call1.2.2).1 = ParseResult.ERROR ∧
    c3Worker.1 = true ∧
    c3Worker.2.1.message = c3Call1.2.2 ∧
    c3Worker.2.1.buffer = c3Call1.2.1 ∧
    (Message.parseFixMessage c3Worker.2.1.buffer c3Worker.2.1.message).1 =
      ParseResult.ERROR := by
  decide

/-- Drops the leading whitespace `atoi` skips (space, TAB, LF, VT, FF, CR). -/
def atoiSkipWs : List Nat → List Nat
  | [] => []
  | c :: cs => if c = 32 ∨ (9 ≤ c ∧ c ≤ 13) then atoiSkipWs cs else c :: cs

/-- Models C `atoi`: skip whitespace, optional sign, longest digit run,
0 when no digit follows.  Overflow of `int` is undefined behaviour in C, so
the model keeps the mathematical value. -/
def atoi (s : List Nat) : Int :=
  match atoiSkipWs s with
  | [] => 0
  | c :: cs =>
    if c = 45 then -((digitsAux 0 cs).1 : Int)
    else if c = 43 then ((digitsAux 0 cs).1 : Int)
    else ((digitsAux 0 (c :: cs)).1 : Int)

/-- Embeds `main` of src/main.cpp.  `args` are the arguments after the
program name; `Except.error` is the process exit status of a refused start,
`Except.ok` the port the `TcpServer` is started with.  With any argument
count other than one it prints usage and returns 1; otherwise the `atoi`
result is range-checked and out-of-range values fall back to 8080. -/
def mainSrc (args : List (List Nat)) : Except Nat Nat :=
  match args with
  | [a] =>
    let port := atoi a
    if port ≤ 0 ∨ 65535 < port then Except.ok 8080 else Except.ok port.toNat
  | _ => Except.error 1

/-- Embeds `main` of sample/main.cpp: `port` starts at 8080; with at least
one argument, a `std::from_chars` parse that consumes the whole argument
replaces it (a failed parse leaves the 8080), then the same range check
falls back to 8080. -/
def mainSample (args : List (List Nat)) : Except Nat Nat :=
  match args with
  | [] => Except.ok 8080
  | a :: _ =>
    let r := fromCharsInt a
    let port : Int :=
      if r.2 = a.length then
        match r.1 with
        | some v => v
        | none => 8080
      else 8080
    if port ≤ 0 ∨ 65535 < port then Except.ok 8080 else Except.ok port.toNat

instance : DecidableEq (Except Nat Nat)
  | Except.ok a, Except.ok b =>
    if h : a = b then isTrue (by rw [h])
    else isFalse (by intro hh; cases hh; exact h rfl)
  | Except.ok _, Except.error _ => isFalse (by intro h; cases h)
  | Except.error _, Except.ok _ => isFalse (by intro h; cases h)
  | Except.error a, Except.error b =>
    if h : a = b then isTrue (by rw [h])
    else isFalse (by intro hh; cases hh; exact h rfl)

/-- C8 counterexample: with the port argument missing, src/main.cpp prints
usage and exits with status 1 instead of starting on the default 8080. -/
theorem c8_counterexample :
    mainSrc [] = Except.error 1 ∧ mainSrc [] ≠ Except.ok 8080 := by
  decide

/-- C8 amended: the sample server's CLI defaults to 8080 when the argument
is missing or invalid and starts normally; the src server starts with the
given port when it is valid and falls back to 8080 when it parses out of
range, but with the argument missing (or more than one argument) it exits
with status 1 rather than starting. -/
theorem c8_port_argument_amended :
    mainSrc [] = Except.error 1 ∧
    mainSrc [ascii "abc", ascii "extra"] = Except.error 1 ∧
    (∀ a : List Nat, atoi a ≤ 0 ∨ 65535 < atoi a → mainSrc [a] = Except.ok 8080) ∧
    (∀ a : List Nat, 0 < atoi a → atoi a ≤ 65535 → mainSrc [a] = Except.ok (atoi a).toNat) ∧
    mainSample [] = Except.ok 8080 ∧
    mainSample [ascii "abc"] = Except.ok 8080 ∧
    mainSample [ascii "99999"] = Except.ok 8080 := by
  refine ⟨rfl, rfl, ?_, ?_, rfl, by decide, by decide⟩
  · intro a h
    simp only [mainSrc]
    rw [if_pos h]
  · intro a h1 h2
    simp only [mainSrc]
    rw [if_neg (by omega)]

/-- Witness for the amended C8 at the concrete argument `12`. -/
theorem c8_port_argument_amended_witness :
    mainSrc [[49, 50]] = Except.ok (atoi [49, 50]).toNat :=
  c8_port_argument_amended.2.2.2.1 [49, 50] (by decide) (by decide)
